import Mathlib

/-!
Verification of the data-normalization core of the municipal dashboard
(`src/app.py`) against its natural-language specification.

The Python code is shallowly embedded: pandas DataFrames become Lean lists of
records, spreadsheet cells become an explicit `Cell` variant type, Python
numbers become rationals (`ℚ`), and absent values (`None` / `NaN`) become
`Option`.  Each definition mirrors one function of `src/app.py`, keeping its
name where Lean allows it.
-/

/-! ## Constants (src/app.py lines 22-25) -/

def MUNICIPAL_IBGE_MIN : Int := 1500000

/-- Exclusive upper bound of the municipal IBGE code range. -/
def MUNICIPAL_IBGE_MAX : Int := 1600000

def YEAR_OFFSET : Int := 2

/-- `display_year` (src/app.py line 38): displayed year = real year + offset. -/
def display_year (ano_real : Int) : Int := ano_real + YEAR_OFFSET

/-! ## String helpers modelling Python `str` operations

Python strings are modelled as Lean `String`; `str.upper` is modelled for the
ASCII and Latin-1 letters that occur in the data (`ç`, `á`, ...), which is the
range Python's `str.upper` maps by subtracting 0x20. -/

/-- Models Python `str.upper` on a single character for ASCII and Latin-1
letters (the characters occurring in the sheets, e.g. `á`, `ç`).  `ß`, which
Python expands to `"SS"`, lies outside the mapped ranges and is left unchanged,
matching its absence from the data. -/
def pyUpperChar (c : Char) : Char :=
  if 'a' ≤ c ∧ c ≤ 'z' then Char.ofNat (c.toNat - 32)
  else if ('à' ≤ c ∧ c ≤ 'ö') ∨ ('ø' ≤ c ∧ c ≤ 'þ') then Char.ofNat (c.toNat - 32)
  else c

/-- Models Python `str.upper`. -/
def pyUpper (s : String) : String := String.mk (s.data.map pyUpperChar)

/-- Models Python `str.strip` (whitespace stripped from both ends). -/
def pyStrip (s : String) : String :=
  String.mk (((s.data.dropWhile Char.isWhitespace).reverse.dropWhile Char.isWhitespace).reverse)

/-- `beginsWith s pat`: the character sequence `s` starts with `pat`.
Models Python `str.startswith`. -/
def beginsWith : List Char → List Char → Bool
  | _, [] => true
  | [], _ :: _ => false
  | a :: as, b :: bs => a = b && beginsWith as bs

/-- `containsSeq s pat`: `pat` occurs as a contiguous subsequence of `s`.
Models the Python `in` operator on strings. -/
def containsSeq : List Char → List Char → Bool
  | [], pat => pat.isEmpty
  | a :: as, pat => beginsWith (a :: as) pat || containsSeq as pat

/-- Models Python `pat in s` (substring containment). -/
def hasSub (s pat : String) : Bool := containsSeq s.data pat.data

/-- Models Python `s.startswith(pat)`. -/
def strStarts (s pat : String) : Bool := beginsWith s.data pat.data

/-- Models Python single-character `str.replace` (all the `.replace` calls in
`src/app.py` have one-character patterns and replacements). -/
def replaceChar (s : String) (a b : Char) : String :=
  String.mk (s.data.map fun c => if c = a then b else c)

/-! ## Numeric formatting (src/app.py lines 78-104)

Python's `f"{x:,.2f}"` formatting of a float is modelled on rationals: round
half-to-even at two decimals, then group the integer digits in threes with
`,` and append the two fractional digits after `.`. -/

/-- Round half-to-even of `(100 * n) / d` (for `d > 0`) to an integer: the
hundredths digit pair Python's `f"{x:.2f}"` keeps.  Written with integer
division and cross-multiplied comparisons only, so that it evaluates under
kernel reduction. -/
def roundCentsAt (n : Int) (d : Int) : Int :=
  let t := 100 * n
  let f := Int.ediv t d
  let r := t - f * d
  if 2 * r < d then f
  else if d < 2 * r then f + 1
  else if f % 2 = 0 then f else f + 1

/-- Insert `sep` after every third digit; input and output are digit lists
least-significant first. -/
def groupAux (sep : Char) : Nat → List Char → List Char
  | _, [] => []
  | k, c :: cs =>
    if 0 < k ∧ k % 3 = 0 then sep :: c :: groupAux sep (k + 1) cs
    else c :: groupAux sep (k + 1) cs

/-- Decimal digits of `n` grouped in threes by `sep`, most-significant first:
the `{:,}` grouping of Python format strings. -/
def formatNatGrouped (sep : Char) (n : Nat) : String :=
  String.mk ((groupAux sep 0 (Nat.toDigits 10 n).reverse).reverse)

/-- Models Python `f"{n:,}"` for an integer `n`. -/
def formatIntComma (n : Int) : String :=
  (if n < 0 then "-" else "") ++ formatNatGrouped ',' n.natAbs

/-- Two decimal digits with a leading zero. -/
def twoDigits (n : Nat) : String :=
  (if n < 10 then "0" else "") ++ String.mk (Nat.toDigits 10 n)

/-- Models Python `f"{x:,.2f}"`: grouped thousands, exactly two decimals.
The rounded hundredths are computed from the reduced numerator and denominator
of `q`. -/
def pyFormat2 (q : ℚ) : String :=
  let m := roundCentsAt q.num (q.den : Int)
  let a := m.natAbs
  (if m < 0 then "-" else "") ++ formatNatGrouped ',' (a / 100) ++ "." ++ twoDigits (a % 100)

/-- `format_ptbr_number` (src/app.py lines 78-81): format with two decimals and
swap the `,` / `.` separators through the three-step replace of the source. -/
def format_ptbr_number (q : ℚ) : String :=
  replaceChar (replaceChar (replaceChar (pyFormat2 q) ',' 'X') '.' ',') 'X' '.'

/-- Python runtime values as they reach `format_value`: `None`, float `NaN`,
strings, booleans, ints and (non-NaN) floats.  Floats are modelled as
rationals, with `NaN` split into its own variant since `ℚ` has no `NaN`. -/
inductive PyVal where
  | none
  | nan
  | pstr (s : String)
  | pbool (b : Bool)
  | pint (n : Int)
  | pfloat (q : ℚ)
deriving DecidableEq

/-- The shared `int`/`float` tail of `format_value` (src/app.py lines 94-102):
currency, then percentage, then integral, then two-decimal formatting.
A rational stands for an integral Python number exactly when its reduced
denominator is `1`, mirroring `float.is_integer`. -/
def format_numeric (indicador : String) (q : ℚ) : String :=
  if hasSub (pyUpper indicador) "R$" then "R$ " ++ format_ptbr_number q
  else if hasSub (pyUpper indicador) "PERCENT" || hasSub indicador "%" then
    format_ptbr_number q ++ "%"
  else if q.den = 1 then replaceChar (formatIntComma q.num) ',' '.'
  else format_ptbr_number q

/-- `format_value` (src/app.py lines 84-104). -/
def format_value (indicador : String) (v : PyVal) : String :=
  match v with
  | PyVal.none => "—"
  | PyVal.nan => "—"
  | PyVal.pstr s => s
  | PyVal.pbool b => if b then "True" else "False"
  | PyVal.pint n => format_numeric indicador (n : ℚ)
  | PyVal.pfloat q => format_numeric indicador q


/-! ## Spreadsheet cells and entity filters (src/app.py lines 107-139)

A cell of a sheet column is numeric, a non-numeric string, or missing.
`pd.to_numeric(col, errors="coerce")` maps numeric cells to their value and
everything else to `NaN`; numeric-looking strings behave like their parsed
number and are represented directly by `Cell.num`. -/

inductive Cell where
  | num (q : ℚ)
  | text (s : String)
  | empty
deriving DecidableEq

/-- Models `pd.to_numeric(col, errors="coerce")` on one cell (`NaN` = `none`). -/
def to_numeric : Cell → Option ℚ
  | Cell.num q => some q
  | Cell.text _ => Option.none
  | Cell.empty => Option.none

/-- Truncation of a rational toward zero: the C-style cast `astype(int)`
performs on a float. -/
def ratTrunc (q : ℚ) : Int := Int.tdiv q.num (q.den : Int)

/-- Models `pd.to_numeric(col, errors="coerce").fillna(0).astype(int)` on one
cell: non-numeric and missing codes coerce to the sentinel `0`. -/
def coerceFillInt (c : Cell) : Int :=
  match to_numeric c with
  | some q => ratTrunc q
  | Option.none => 0

/-- A row of an indicator sheet, restricted to the two columns the filter
reads: `"Código IBGE"` and `"Indicador"` (the label column holding the state
name, the `RI` rows and the municipality names). -/
structure IRow where
  codigo : Cell
  indicador : String
deriving DecidableEq

/-- `only_municipios_from_indicador_sheet` (src/app.py lines 107-129).
`hasCodigo` / `hasIndicador` say whether the two required columns are present
in the sheet; when either is missing the input is returned unchanged (a copy).
Otherwise a row is kept iff its coerced code is in the municipal range and its
stripped upper-cased label is neither a state alias nor an `"RI "` row; the
coerced integer code replaces the raw code in the output.
`keepIndicadorRow` is the per-row keep/transform decision of the combined
boolean masks. -/
def keepIndicadorRow (r : IRow) : Option IRow :=
  let ib := coerceFillInt r.codigo
  let nome := pyStrip r.indicador
  if MUNICIPAL_IBGE_MIN ≤ ib ∧ ib < MUNICIPAL_IBGE_MAX ∧
      ¬(pyUpper nome = "PARÁ" ∨ pyUpper nome = "PARA") ∧
      strStarts (pyUpper nome) "RI " = false
  then some { r with codigo := Cell.num (ib : ℚ) }
  else Option.none

def only_municipios_from_indicador_sheet (hasCodigo hasIndicador : Bool)
    (rows : List IRow) : List IRow :=
  if hasCodigo && hasIndicador then rows.filterMap keepIndicadorRow
  else rows

/-- A row of a wide financial sheet (`Receita` / `Despesa` / `FPM`): code,
name, and one cell per year column. -/
structure WRow where
  codigo : Cell
  nome : String
  cells : List (Int × Cell)
deriving DecidableEq

/-- The cell of `r` under year column `y` (missing cells read as `NaN`). -/
def WRow.val (r : WRow) (y : Int) : Cell :=
  match r.cells.find? (fun p => decide (p.1 = y)) with
  | some p => p.2
  | Option.none => Cell.empty

/-- `only_municipios_from_nome_municipio_sheet` (src/app.py lines 132-139):
when `"Código IBGE"` is absent the input is returned unchanged; otherwise only
rows with a coerced code in the municipal range are kept, the coerced integer
replacing the raw code; `keepNomeRow` is the per-row decision. -/
def keepNomeRow (r : WRow) : Option WRow :=
  let ib := coerceFillInt r.codigo
  if MUNICIPAL_IBGE_MIN ≤ ib ∧ ib < MUNICIPAL_IBGE_MAX
  then some { r with codigo := Cell.num (ib : ℚ) }
  else Option.none

def only_municipios_from_nome_municipio_sheet (hasCodigo : Bool)
    (rows : List WRow) : List WRow :=
  if hasCodigo then rows.filterMap keepNomeRow
  else rows

/-! ## Projector: `wide_to_kv` (src/app.py lines 142-156) -/

/-- A row of an indicator sheet for projection: the ordered `(column, cell)`
pairs of the row. -/
def KRow := List (String × PyVal)

/-- The cell of `row` in column `col`. -/
def rowGet (row : KRow) (col : String) : Option PyVal :=
  (List.find? (fun p => decide (p.1 = col)) row).map Prod.snd

/-- The identifier/metadata columns `wide_to_kv` pops before projecting. -/
def DROPPED_KEYS : List String := ["Código IBGE", "R. Integ.", "Indicador", "Nome_Município"]

/-- `wide_to_kv` (src/app.py lines 142-156): select the first row whose
`nome_col` cell equals the municipality name; if none matches return the
sentinel pair, else drop identifier columns and format the remaining cells in
their original order. -/
def wide_to_kv (rows : List KRow) (municipio : String) (nome_col : String) :
    List (String × String) :=
  match rows.find? (fun row => decide (rowGet row nome_col = some (PyVal.pstr municipio))) with
  | Option.none => [("—", "Município não encontrado nessa aba")]
  | some row =>
      (List.filter (fun p => decide (p.1 ∉ DROPPED_KEYS)) row).map
        (fun p => (p.1, format_value p.1 p.2))

/-! ## Generic insertion sort

`pandas.sort_values` computes a stable ascending `argsort` of the key column
and, for `ascending=False`, reverses both the input and the resulting order
(`pandas.core.sorting.nargsort`).  The stable ascending sort is modelled by
insertion sort; numpy's default `argsort` is treated as stable, which is exact
for the stable kinds and for the small-array insertion-sort regime of its
default quicksort. -/

def insertLe (le : α → α → Bool) (a : α) : List α → List α
  | [] => [a]
  | b :: bs => if le a b then a :: b :: bs else b :: insertLe le a bs

/-- Stable insertion sort: the model of a stable ascending `sort_values`. -/
def isort (le : α → α → Bool) : List α → List α
  | [] => []
  | a :: as => insertLe le a (isort le as)

/-! ## Reshaper: `melt_years` (src/app.py lines 159-186) -/

/-- A wide financial sheet: which of the two identifier columns are present,
the (integer-headed) year columns, and the rows.  Unnamed placeholder columns
are dropped by the source before anything else and are not modelled. -/
structure WSheet where
  hasCodigo : Bool
  hasNome : Bool
  yearCols : List Int
  rows : List WRow

/-- One record of a long-format dataset produced by `melt_years`. -/
structure MeltRec where
  ibge : Int
  municipio : Option String
  metric : String
  ano : Int
  value : Option ℚ
deriving DecidableEq

/-- `melt_years` (src/app.py lines 159-186).  The municipal filter runs first;
year columns are processed in ascending order, one output record per retained
row per year column, with cell values coerced to numeric (`NaN` = `none`).
The source's final `out["IBGE"] = ...` line raises `KeyError` whenever the
`"Código IBGE"` column is absent (melt itself succeeds even with no id
columns), which the model surfaces as `Except.error`. -/
def melt_years (w : WSheet) (value_name : String) : Except String (List MeltRec) :=
  if w.hasCodigo then
    let kept := only_municipios_from_nome_municipio_sheet w.hasCodigo w.rows
    let years := isort (fun a b => decide (a ≤ b)) w.yearCols
    Except.ok (years.flatMap fun y => kept.map fun r =>
      { ibge := coerceFillInt r.codigo
        municipio := if w.hasNome then some r.nome else Option.none
        metric := value_name
        ano := y
        value := to_numeric (r.val y) })
  else Except.error "KeyError: IBGE"


/-! ## Aggregator/Ranker: `ranking_fig` (src/app.py lines 273-316) and
Lookup: `get_value` (src/app.py lines 336-343)

A long-format dataset is a list of records over the three columns the two
operations read: `Municipio`, `Ano` and the metric value column (`NaN` =
`none`). -/

/-- One row of a long-format dataset (`Municipio`, `Ano`, metric value). -/
structure LRec where
  municipio : String
  ano : Int
  value : Option ℚ
deriving DecidableEq

/-- The sort key of a ranking row: its metric value (rows are sorted only
after `dropna`, so the default for `none` is never compared). -/
def valKey (r : LRec) : ℚ := r.value.getD 0

/-- Boolean `≤` on a rational key, the comparator handed to the sorts. -/
def kle (k : α → ℚ) (a b : α) : Bool := decide (k a ≤ k b)

/-- Ascending `sort_values` on the value column (stable ascending argsort). -/
def sortAsc (l : List LRec) : List LRec := isort (kle valKey) l

/-- Descending `sort_values` on the value column.  `pandas.core.sorting.nargsort`
reverses the rows, takes a stable ascending argsort, and reverses the
resulting order again. -/
def sortDesc (l : List LRec) : List LRec := (isort (kle valKey) l.reverse).reverse

/-- `dfy` of `ranking_fig` (src/app.py lines 279-280): the dataset filtered to
the year, with absent-valued records dropped. -/
def yearRows (df : List LRec) (ano : Int) : List LRec :=
  (df.filter fun r => decide (r.ano = ano)).filter fun r => r.value.isSome

/-- `top` of `ranking_fig` (src/app.py lines 281-283): the natural top-N of
the year's records by descending value. -/
def naturalTop (df : List LRec) (ano : Int) (top_n : Nat) : List LRec :=
  (sortDesc (yearRows df ano)).take top_n

/-- `sel` of `ranking_fig` (src/app.py line 285): the records of the selected
municipality, in descending-sorted order. -/
def selRows (df : List LRec) (ano : Int) (municipio : String) : List LRec :=
  (sortDesc (yearRows df ano)).filter fun r => decide (r.municipio = municipio)

/-- Lines 286-288 of src/app.py: append the first descending-sorted record of
the selected municipality when it has one and its name is not already among
the natural top-N names. -/
def pickedRows (df : List LRec) (ano : Int) (municipio : String) (top_n : Nat) : List LRec :=
  if ¬(selRows df ano municipio).isEmpty ∧
      municipio ∉ (naturalTop df ano top_n).map LRec.municipio
  then naturalTop df ano top_n ++ (selRows df ano municipio).take 1
  else naturalTop df ano top_n

/-- Lines 289-290 of src/app.py: tag each picked row `"Selecionado"` iff its
municipality is the selected one (else `"Outros"`), then re-sort ascending by
value for display. -/
def rankingRows (df : List LRec) (ano : Int) (municipio : String) (top_n : Nat) :
    List (LRec × String) :=
  isort (kle fun p => valKey p.1)
    ((pickedRows df ano municipio top_n).map fun r =>
      (r, if r.municipio = municipio then "Selecionado" else "Outros"))

/-- `ranking_fig` (src/app.py lines 273-316): with no year or no municipality
selected an empty placeholder figure is returned (modelled as `none`);
otherwise the bar rows are `rankingRows`. -/
def ranking_fig (df : List LRec) (ano : Option Int) (municipio : Option String)
    (top_n : Nat) : Option (List (LRec × String)) :=
  match ano, municipio with
  | some a, some m => some (rankingRows df a m top_n)
  | _, _ => Option.none

/-- `get_value` (src/app.py lines 336-343): exact-match point query on
`(Municipio, Ano)`; `None` when no record matches or the first matching
record's value is `NaN`, else that value. -/
def get_value (df : List LRec) (municipio : String) (ano : Int) : Option ℚ :=
  match df.filter (fun r => decide (r.municipio = municipio ∧ r.ano = ano)) with
  | [] => Option.none
  | r :: _ => r.value


/-! ## Helper lemmas about the insertion sort -/

theorem insertLe_perm (le : α → α → Bool) (a : α) :
    ∀ l : List α, (insertLe le a l).Perm (a :: l)
  | [] => List.Perm.refl _
  | b :: bs => by
      simp only [insertLe]
      by_cases h : le a b = true
      · rw [if_pos h]
      · rw [if_neg h]
        exact ((insertLe_perm le a bs).cons b).trans (List.Perm.swap a b bs)

theorem isort_perm (le : α → α → Bool) : ∀ l : List α, (isort le l).Perm l
  | [] => List.Perm.refl _
  | a :: as => (insertLe_perm le a (isort le as)).trans ((isort_perm le as).cons a)

theorem isort_length (le : α → α → Bool) (l : List α) :
    (isort le l).length = l.length := (isort_perm le l).length_eq

theorem mem_isort (le : α → α → Bool) (l : List α) (x : α) :
    x ∈ isort le l ↔ x ∈ l := (isort_perm le l).mem_iff

theorem pairwise_insertLe (k : α → ℚ) (a : α) :
    ∀ l : List α, l.Pairwise (fun x y => k x ≤ k y) →
      (insertLe (kle k) a l).Pairwise (fun x y => k x ≤ k y)
  | [], _ => List.pairwise_cons.mpr ⟨by simp, List.Pairwise.nil⟩
  | b :: bs, h => by
      obtain ⟨hb, hbs⟩ := List.pairwise_cons.mp h
      simp only [insertLe]
      by_cases hab : kle k a b = true
      · rw [if_pos hab]
        have hk : k a ≤ k b := of_decide_eq_true hab
        refine List.pairwise_cons.mpr ⟨?_, h⟩
        intro x hx
        rcases List.mem_cons.mp hx with rfl | hx
        · exact hk
        · exact le_trans hk (hb x hx)
      · rw [if_neg hab]
        have hk : k b ≤ k a := le_of_not_le (fun hc => hab (decide_eq_true hc))
        refine List.pairwise_cons.mpr ⟨?_, pairwise_insertLe k a bs hbs⟩
        intro x hx
        rcases List.mem_cons.mp ((insertLe_perm (kle k) a bs).mem_iff.mp hx) with rfl | hx
        · exact hk
        · exact hb x hx

theorem isort_pairwise (k : α → ℚ) :
    ∀ l : List α, (isort (kle k) l).Pairwise (fun x y => k x ≤ k y)
  | [] => List.Pairwise.nil
  | a :: as => pairwise_insertLe k a (isort (kle k) as) (isort_pairwise k as)

theorem sortDesc_perm (l : List LRec) : (sortDesc l).Perm l :=
  (List.reverse_perm (isort (kle valKey) l.reverse)).trans
    ((isort_perm (kle valKey) l.reverse).trans (List.reverse_perm l))

theorem flatMap_const_length (f : α → List β) (c : Nat) (hf : ∀ a, (f a).length = c) :
    ∀ l : List α, (l.flatMap f).length = l.length * c
  | [] => by simp
  | a :: as => by
      simp only [List.flatMap_cons, List.length_append, hf a,
        flatMap_const_length f c hf as, List.length_cons]
      ring

theorem rankingRows_length (df : List LRec) (a : Int) (m : String) (n : Nat) :
    (rankingRows df a m n).length = (pickedRows df a m n).length := by
  unfold rankingRows
  rw [isort_length, List.length_map]

theorem rankingRows_map_fst_perm (df : List LRec) (a : Int) (m : String) (n : Nat) :
    ((rankingRows df a m n).map Prod.fst).Perm (pickedRows df a m n) := by
  unfold rankingRows
  refine ((isort_perm _ _).map Prod.fst).trans ?_
  rw [List.map_map]
  have hid : (Prod.fst ∘ fun r : LRec =>
      (r, if r.municipio = m then "Selecionado" else "Outros")) = id := rfl
  rw [hid, List.map_id]

/-! ## Claims -/

/-- C5: `format_value` produces exact locale strings — `1234567.89` under a
currency hint gives `"R$ 1.234.567,89"`, integral `1234567` with no hint gives
`"1.234.567"`, null/NaN give `"—"` — and the dispatch rules apply in priority
order: absent, then string/boolean identity, then currency, then percentage,
then integral, then two-decimal. -/
theorem C5_format_value_locale :
    format_value "Receita Total (R$)" (PyVal.pfloat ⟨123456789, 100, by norm_num, by norm_num⟩) =
      "R$ 1.234.567,89"
  ∧ format_value "População" (PyVal.pint 1234567) = "1.234.567"
  ∧ format_value "Qualquer indicador" PyVal.none = "—"
  ∧ format_value "Qualquer indicador" PyVal.nan = "—"
  ∧ format_value "Valor (R$)" PyVal.nan = "—"
  ∧ format_value "Valor (R$)" (PyVal.pstr "abc") = "abc"
  ∧ format_value "Valor (R$)" (PyVal.pbool true) = "True"
  ∧ format_value "Taxa (R$) percent" (PyVal.pint 5) = "R$ 5,00"
  ∧ format_value "Taxa (%)" (PyVal.pint 5) = "5,00%"
  ∧ format_value "Área" (PyVal.pfloat 5) = "5"
  ∧ format_value "Área" (PyVal.pfloat ⟨11, 2, by norm_num, by norm_num⟩) = "5,50" := by
  decide

/-- C7 counterexample: when no row matches, the sentinel pair returned by
`wide_to_kv` has *label* `"—"`; its value is the not-found message, not `"—"`
as the claim states. -/
theorem C7_counterexample :
    wide_to_kv [] "Belém" "Indicador" = [("—", "Município não encontrado nessa aba")]
  ∧ (wide_to_kv [] "Belém" "Indicador").map Prod.snd ≠ ["—"] := by decide

/-- C7 (amended): when no row of the sheet matches the entity name exactly in
the name column, `wide_to_kv` returns a single sentinel pair — not an
exception — whose label is `"—"` and whose value is the not-found message. -/
theorem C7_sentinel (rows : List KRow) (municipio nome_col : String)
    (h : ∀ row ∈ rows, rowGet row nome_col ≠ some (PyVal.pstr municipio)) :
    wide_to_kv rows municipio nome_col = [("—", "Município não encontrado nessa aba")] := by
  have hf : rows.find?
      (fun row => decide (rowGet row nome_col = some (PyVal.pstr municipio))) = Option.none := by
    rw [List.find?_eq_none]
    intro x hx
    simpa using h x hx
  unfold wide_to_kv
  rw [hf]

theorem C7_sentinel_witness :
    wide_to_kv [[("Indicador", PyVal.pstr "Acará")]] "Belém" "Indicador" =
      [("—", "Município não encontrado nessa aba")] :=
  C7_sentinel _ _ _ (by decide)

/-- C8: `get_value` returns the absent result (`none`) — never an error —
exactly when no record matches `(entity, year)` or the matching record's value
is `NaN`, and otherwise returns that record's value.  The dataset is assumed
to hold at most one record per `(entity, year)` (the LongDataset invariant),
which makes "the matching record" well defined. -/
theorem C8_get_value_absence (df : List LRec) (m : String) (a : Int)
    (h : (df.filter fun r => decide (r.municipio = m ∧ r.ano = a)).length ≤ 1) :
    (get_value df m a = Option.none ↔
      (∀ r ∈ df, ¬(r.municipio = m ∧ r.ano = a)) ∨
        ∃ r ∈ df, (r.municipio = m ∧ r.ano = a) ∧ r.value = Option.none)
  ∧ ∀ q : ℚ, get_value df m a = some q ↔
      ∃ r ∈ df, (r.municipio = m ∧ r.ano = a) ∧ r.value = some q := by
  have hmem : ∀ s : LRec, s ∈ df → (s.municipio = m ∧ s.ano = a) →
      s ∈ df.filter fun r => decide (r.municipio = m ∧ r.ano = a) := by
    intro s hs hp
    exact List.mem_filter.mpr ⟨hs, decide_eq_true hp⟩
  rcases hd : df.filter fun r => decide (r.municipio = m ∧ r.ano = a) with _ | ⟨r, t⟩
  · have hnone : ∀ s ∈ df, ¬(s.municipio = m ∧ s.ano = a) := by
      intro s hs hp
      have := hmem s hs hp
      rw [hd] at this
      exact absurd this (List.not_mem_nil s)
    have hg : get_value df m a = Option.none := by
      unfold get_value
      rw [hd]
    constructor
    · rw [hg]
      exact ⟨fun _ => Or.inl hnone, fun _ => rfl⟩
    · intro q
      simp only [hg]
      constructor
      · intro hq
        exact absurd hq (by simp)
      · rintro ⟨s, hs, hp, _⟩
        exact absurd hp (hnone s hs)
  · have ht : t = [] := by
      rw [hd] at h
      simpa using h
    subst ht
    have hrdf : r ∈ df ∧ (r.municipio = m ∧ r.ano = a) := by
      have : r ∈ df.filter fun s => decide (s.municipio = m ∧ s.ano = a) := by
        rw [hd]
        exact List.mem_cons_self r []
      have h2 := List.mem_filter.mp this
      exact ⟨h2.1, of_decide_eq_true h2.2⟩
    have huniq : ∀ s : LRec, s ∈ df → (s.municipio = m ∧ s.ano = a) → s = r := by
      intro s hs hp
      have := hmem s hs hp
      rw [hd] at this
      simpa using this
    have hg : get_value df m a = r.value := by
      unfold get_value
      rw [hd]
    constructor
    · rw [hg]
      constructor
      · intro hv
        exact Or.inr ⟨r, hrdf.1, hrdf.2, hv⟩
      · rintro (hnone | ⟨s, hs, hp, hv⟩)
        · exact absurd hrdf.2 (hnone r hrdf.1)
        · rw [← huniq s hs hp]
          exact hv
    · intro q
      rw [hg]
      constructor
      · intro hv
        exact ⟨r, hrdf.1, hrdf.2, hv⟩
      · rintro ⟨s, hs, hp, hv⟩
        rw [← huniq s hs hp]
        exact hv

theorem C8_get_value_witness :
    (get_value [⟨"Acará", 2020, some 3⟩] "Acará" 2020 = Option.none ↔
      (∀ r ∈ [(⟨"Acará", 2020, some 3⟩ : LRec)], ¬(r.municipio = "Acará" ∧ r.ano = 2020)) ∨
        ∃ r ∈ [(⟨"Acará", 2020, some 3⟩ : LRec)],
          (r.municipio = "Acará" ∧ r.ano = 2020) ∧ r.value = Option.none)
  ∧ ∀ q : ℚ, get_value [⟨"Acará", 2020, some 3⟩] "Acará" 2020 = some q ↔
      ∃ r ∈ [(⟨"Acará", 2020, some 3⟩ : LRec)],
        (r.municipio = "Acará" ∧ r.ano = 2020) ∧ r.value = some q :=
  C8_get_value_absence [⟨"Acará", 2020, some 3⟩] "Acará" 2020 (by decide)

/-- C9: when the required columns are absent — `"Código IBGE"` in either
variant, or `"Indicador"` in the indicator-sheet variant — the entity filters
return the input rows unchanged, performing no filtering at all. -/
theorem C9_missing_columns_passthrough (irows : List IRow) (wrows : List WRow)
    (hasCod hasInd : Bool) :
    (hasCod = false ∨ hasInd = false →
      only_municipios_from_indicador_sheet hasCod hasInd irows = irows)
  ∧ only_municipios_from_nome_municipio_sheet false wrows = wrows := by
  constructor
  · intro h
    unfold only_municipios_from_indicador_sheet
    rcases h with h | h <;> subst h <;> simp
  · rfl

theorem C9_missing_columns_witness :
    only_municipios_from_indicador_sheet false true
        [⟨Cell.num 10, "Pará"⟩, ⟨Cell.text "abc", "RI Guamá"⟩] =
      [⟨Cell.num 10, "Pará"⟩, ⟨Cell.text "abc", "RI Guamá"⟩]
  ∧ only_municipios_from_nome_municipio_sheet false [⟨Cell.empty, "Pará", []⟩] =
      [⟨Cell.empty, "Pará", []⟩] :=
  ⟨(C9_missing_columns_passthrough _ [] false true).1 (Or.inl rfl),
    (C9_missing_columns_passthrough [] _ false true).2⟩

/-- C4 counterexample: the filter tests the whitespace-*stripped* label, so a
row whose raw label is exactly `"RI "` (the marker with its trailing space and
nothing after) is retained although that raw label does begin with `"RI "`
case-insensitively, contradicting the claim's no-retained-regional-label
clause. -/
theorem C4_counterexample :
    only_municipios_from_indicador_sheet true true [⟨Cell.num 1500001, "RI "⟩] =
      [⟨Cell.num 1500001, "RI "⟩]
  ∧ strStarts (pyUpper "RI ") "RI " = true := by decide

/-- C4 (amended): every row retained by either entity-filter variant carries a
coerced integer code in `[1500000, 1600000)`; non-numeric or missing codes
coerce to the sentinel `0`, which fails the municipal predicate; and in the
indicator-sheet variant no retained row's *whitespace-stripped* label equals a
state alias (`"PARÁ"`/`"PARA"`, case-insensitively) or begins with `"RI "`
case-insensitively. -/
theorem C4_entity_filter_invariants :
    (∀ rows : List IRow, ∀ r ∈ only_municipios_from_indicador_sheet true true rows,
      (∃ ib : Int, r.codigo = Cell.num (ib : ℚ) ∧
          MUNICIPAL_IBGE_MIN ≤ ib ∧ ib < MUNICIPAL_IBGE_MAX)
      ∧ pyUpper (pyStrip r.indicador) ≠ "PARÁ" ∧ pyUpper (pyStrip r.indicador) ≠ "PARA"
      ∧ strStarts (pyUpper (pyStrip r.indicador)) "RI " = false)
  ∧ (∀ rows : List WRow, ∀ r ∈ only_municipios_from_nome_municipio_sheet true rows,
      ∃ ib : Int, r.codigo = Cell.num (ib : ℚ) ∧
        MUNICIPAL_IBGE_MIN ≤ ib ∧ ib < MUNICIPAL_IBGE_MAX)
  ∧ (∀ s, coerceFillInt (Cell.text s) = 0) ∧ coerceFillInt Cell.empty = 0
  ∧ ¬(MUNICIPAL_IBGE_MIN ≤ (0 : Int) ∧ (0 : Int) < MUNICIPAL_IBGE_MAX) := by
  refine ⟨?_, ?_, fun s => rfl, rfl, by decide⟩
  · intro rows r hr
    have hr' : r ∈ rows.filterMap keepIndicadorRow := by
      simpa [only_municipios_from_indicador_sheet] using hr
    obtain ⟨a, _, hfa⟩ := List.mem_filterMap.mp hr'
    unfold keepIndicadorRow at hfa
    by_cases hc : MUNICIPAL_IBGE_MIN ≤ coerceFillInt a.codigo ∧
        coerceFillInt a.codigo < MUNICIPAL_IBGE_MAX ∧
        ¬(pyUpper (pyStrip a.indicador) = "PARÁ" ∨ pyUpper (pyStrip a.indicador) = "PARA") ∧
        strStarts (pyUpper (pyStrip a.indicador)) "RI " = false
    · rw [if_pos hc] at hfa
      obtain rfl := Option.some.inj hfa
      refine ⟨⟨coerceFillInt a.codigo, rfl, hc.1, hc.2.1⟩, ?_, ?_, hc.2.2.2⟩
      · exact fun he => hc.2.2.1 (Or.inl he)
      · exact fun he => hc.2.2.1 (Or.inr he)
    · rw [if_neg hc] at hfa
      exact absurd hfa (by simp)
  · intro rows r hr
    have hr' : r ∈ rows.filterMap keepNomeRow := by
      simpa [only_municipios_from_nome_municipio_sheet] using hr
    obtain ⟨a, _, hfa⟩ := List.mem_filterMap.mp hr'
    unfold keepNomeRow at hfa
    by_cases hc : MUNICIPAL_IBGE_MIN ≤ coerceFillInt a.codigo ∧
        coerceFillInt a.codigo < MUNICIPAL_IBGE_MAX
    · rw [if_pos hc] at hfa
      obtain rfl := Option.some.inj hfa
      exact ⟨coerceFillInt a.codigo, rfl, hc.1, hc.2⟩
    · rw [if_neg hc] at hfa
      exact absurd hfa (by simp)

theorem C4_entity_filter_witness :
    ((∃ ib : Int, (⟨Cell.num 1500001, "Abaetetuba"⟩ : IRow).codigo = Cell.num (ib : ℚ) ∧
        MUNICIPAL_IBGE_MIN ≤ ib ∧ ib < MUNICIPAL_IBGE_MAX)
      ∧ pyUpper (pyStrip "Abaetetuba") ≠ "PARÁ" ∧ pyUpper (pyStrip "Abaetetuba") ≠ "PARA"
      ∧ strStarts (pyUpper (pyStrip "Abaetetuba")) "RI " = false)
  ∧ coerceFillInt (Cell.text "abc") = 0 :=
  ⟨by
    have h := C4_entity_filter_invariants.1
      [⟨Cell.num 1500001, "Abaetetuba"⟩, ⟨Cell.num 15, "Pará"⟩, ⟨Cell.num 1500100, "RI Guamá"⟩]
      ⟨Cell.num 1500001, "Abaetetuba"⟩ (by decide)
    exact h,
   C4_entity_filter_invariants.2.2.1 "abc"⟩

/-- The wide sheet used to refute C6: it has the `"Nome_Município"` identifier
column but not `"Código IBGE"`. -/
def wsNomeOnly : WSheet :=
  ⟨false, true, [2020], [⟨Cell.num 1500001, "Abaetetuba", [(2020, Cell.num 7)]⟩]⟩

/-- C6 counterexample: a sheet containing the identifier column
`"Nome_Município"` (but no `"Código IBGE"`) makes `melt_years` fail — the
source unconditionally executes `out["IBGE"] = ...`, raising `KeyError` — so
"succeeds whenever at least one identifier column is present" is false. -/
theorem C6_counterexample :
    wsNomeOnly.hasNome = true
  ∧ melt_years wsNomeOnly "Receita" = Except.error "KeyError: IBGE"
  ∧ (melt_years wsNomeOnly "Receita").isOk = false :=
  ⟨rfl, rfl, rfl⟩

/-- C6 (amended): `melt_years` fails with a surfaced error exactly when the
`"Código IBGE"` column is absent — in particular when neither identifier
column is present, but also when only `"Nome_Município"` is — and when
`"Código IBGE"` is present it succeeds, producing one record per retained
(municipal-filtered) row per year column. -/
theorem C6_melt_requires_codigo (w : WSheet) (vn : String) :
    (w.hasCodigo = false → melt_years w vn = Except.error "KeyError: IBGE")
  ∧ (w.hasCodigo = true → ∃ l, melt_years w vn = Except.ok l ∧
      l.length = w.yearCols.length *
        (only_municipios_from_nome_municipio_sheet true w.rows).length) := by
  constructor
  · intro h
    unfold melt_years
    rw [h]
    rfl
  · intro h
    unfold melt_years
    rw [h]
    simp only [if_true]
    refine ⟨_, rfl, ?_⟩
    rw [flatMap_const_length _
      (only_municipios_from_nome_municipio_sheet true w.rows).length
      (fun y => List.length_map _ _) _]
    rw [isort_length]

theorem C6_melt_witness :
    melt_years wsNomeOnly "Despesa" = Except.error "KeyError: IBGE"
  ∧ ∃ l, melt_years ⟨true, true, [2020, 2021], [⟨Cell.num 1500001, "Abaetetuba", []⟩]⟩ "Receita" =
      Except.ok l ∧
      l.length = (⟨true, true, [2020, 2021], [⟨Cell.num 1500001, "Abaetetuba", []⟩]⟩ : WSheet).yearCols.length *
        (only_municipios_from_nome_municipio_sheet true
          [⟨Cell.num 1500001, "Abaetetuba", []⟩]).length :=
  ⟨(C6_melt_requires_codigo wsNomeOnly "Despesa").1 rfl,
   (C6_melt_requires_codigo ⟨true, true, [2020, 2021], [⟨Cell.num 1500001, "Abaetetuba", []⟩]⟩ "Receita").2 rfl⟩

/-- C1 counterexample: with a single-record dataset and `top_n = 2` the
selected entity is within the natural top 2, but the output has 1 row, not
exactly `top_n = 2` rows as the claim states. -/
theorem C1_counterexample :
    "Acará" ∈ (naturalTop [⟨"Acará", 2021, some 5⟩] 2021 2).map LRec.municipio
  ∧ (rankingRows [⟨"Acará", 2021, some 5⟩] 2021 "Acará" 2).length = 1
  ∧ (rankingRows [⟨"Acará", 2021, some 5⟩] 2021 "Acará" 2).length ≠ 2 := by decide

/-- C1 (amended): if the selected entity has a non-absent value for the year
and is not among the natural top-N names, its record is appended and the
output has exactly `top_n + 1` rows; if it is within the natural top N the
output has exactly `min top_n k` rows where `k` is the number of non-absent
records for that year (`top_n` rows only when the year has at least `top_n`
such records); and if it has no non-absent value the natural top-N ranking is
returned unmodified (as a permutation induced by the display re-sort). -/
theorem C1_rank_inclusion_sizes (df : List LRec) (a : Int) (m : String) (n : Nat) :
    ((∃ r ∈ yearRows df a, r.municipio = m) →
      m ∉ (naturalTop df a n).map LRec.municipio →
      (rankingRows df a m n).length = n + 1)
  ∧ (m ∈ (naturalTop df a n).map LRec.municipio →
      (rankingRows df a m n).length = min n (yearRows df a).length)
  ∧ ((∀ r ∈ yearRows df a, r.municipio ≠ m) →
      ((rankingRows df a m n).map Prod.fst).Perm (naturalTop df a n)) := by
  refine ⟨?_, ?_, ?_⟩
  · rintro ⟨r, hr, hrm⟩ hnot
    have hrs : r ∈ sortDesc (yearRows df a) := (sortDesc_perm _).mem_iff.mpr hr
    have hsel_mem : r ∈ selRows df a m :=
      List.mem_filter.mpr ⟨hrs, decide_eq_true hrm⟩
    have hsel : ¬(selRows df a m).isEmpty = true := by
      rw [List.isEmpty_iff]
      exact List.ne_nil_of_mem hsel_mem
    have hge : n ≤ (sortDesc (yearRows df a)).length := by
      by_contra hlt
      have heq : (sortDesc (yearRows df a)).take n = sortDesc (yearRows df a) :=
        List.take_of_length_le (le_of_not_le hlt)
      exact hnot (List.mem_map.mpr ⟨r, by rw [naturalTop, heq]; exact hrs, hrm⟩)
    have htoplen : (naturalTop df a n).length = n := by
      rw [naturalTop, List.length_take]
      omega
    have hsel1 : ((selRows df a m).take 1).length = 1 := by
      rw [List.length_take]
      have : 0 < (selRows df a m).length :=
        List.length_pos.mpr (List.ne_nil_of_mem hsel_mem)
      omega
    rw [rankingRows_length, pickedRows, if_pos ⟨hsel, hnot⟩, List.length_append,
      htoplen, hsel1]
  · intro hmem
    rw [rankingRows_length, pickedRows, if_neg (fun hc => hc.2 hmem), naturalTop,
      List.length_take, (sortDesc_perm (yearRows df a)).length_eq]
  · intro hnone
    have hsel_nil : selRows df a m = [] := by
      rw [selRows, List.filter_eq_nil_iff]
      intro r hr
      have hry : r ∈ yearRows df a := (sortDesc_perm _).mem_iff.mp hr
      simpa using hnone r hry
    refine (rankingRows_map_fst_perm df a m n).trans ?_
    rw [pickedRows, if_neg]
    · intro hc
      exact hc.1 (by rw [hsel_nil]; rfl)

/-- The spec's own end-to-end ranking scenario: `{A: 100, B: 200, C: 50}` for
2021 with `top_n = 2`. -/
def dfScenario : List LRec :=
  [⟨"A", 2021, some 100⟩, ⟨"B", 2021, some 200⟩, ⟨"C", 2021, some 50⟩]

theorem C1_rank_inclusion_witness :
    (rankingRows dfScenario 2021 "C" 2).length = 2 + 1
  ∧ (rankingRows dfScenario 2021 "B" 2).length = min 2 (yearRows dfScenario 2021).length :=
  ⟨(C1_rank_inclusion_sizes dfScenario 2021 "C" 2).1 (by decide) (by decide),
   (C1_rank_inclusion_sizes dfScenario 2021 "B" 2).2.1 (by decide)⟩

/-- C2: the rank output after the final re-sort is non-decreasing in the
metric value; every row's tag is `"Selecionado"` iff its entity is the
selected one; and — reading "present in the dataset for that year" as having a
record that survives the absent-value drop, with the LongDataset at-most-one-
record-per-(entity, year) invariant assumed for the selected entity — exactly
one row is tagged selected when such a record exists and zero otherwise. -/
theorem C2_rank_order_and_tags (df : List LRec) (a : Int) (m : String) (n : Nat)
    (h : ((yearRows df a).filter fun r => decide (r.municipio = m)).length ≤ 1) :
    (rankingRows df a m n).Pairwise (fun p q => p.1.value.getD 0 ≤ q.1.value.getD 0)
  ∧ (∀ p ∈ rankingRows df a m n, (p.2 = "Selecionado" ↔ p.1.municipio = m))
  ∧ ((∃ r ∈ yearRows df a, r.municipio = m) →
      ((rankingRows df a m n).filter fun p => decide (p.2 = "Selecionado")).length = 1)
  ∧ ((∀ r ∈ yearRows df a, r.municipio ≠ m) →
      ((rankingRows df a m n).filter fun p => decide (p.2 = "Selecionado")).length = 0) := by
  have hfun : ((fun p : LRec × String => decide (p.2 = "Selecionado")) ∘
      (fun r : LRec => (r, if r.municipio = m then "Selecionado" else "Outros"))) =
      fun r : LRec => decide (r.municipio = m) := by
    funext r
    by_cases hrm : r.municipio = m
    · rw [Function.comp_apply]
      simp only [if_pos hrm]
      rw [decide_eq_true hrm]
      decide
    · rw [Function.comp_apply]
      simp only [if_neg hrm]
      rw [decide_eq_false hrm]
      decide
  have hcount : ((rankingRows df a m n).filter fun p => decide (p.2 = "Selecionado")).length =
      (pickedRows df a m n).countP fun r => decide (r.municipio = m) := by
    rw [← List.countP_eq_length_filter, rankingRows,
      (isort_perm _ _).countP_eq, List.countP_map, hfun]
  have hdesc : ((sortDesc (yearRows df a)).countP fun r => decide (r.municipio = m)) =
      (yearRows df a).countP fun r => decide (r.municipio = m) :=
    (sortDesc_perm _).countP_eq _
  refine ⟨?_, ?_, ?_, ?_⟩
  · rw [rankingRows]
    exact isort_pairwise _ _
  · intro p hp
    rw [rankingRows] at hp
    have hp' := (isort_perm _ _).mem_iff.mp hp
    obtain ⟨r, _, rfl⟩ := List.mem_map.mp hp'
    by_cases hrm : r.municipio = m
    · rw [if_pos hrm]
      exact ⟨fun _ => hrm, fun _ => rfl⟩
    · rw [if_neg hrm]
      have hns : ("Outros" : String) ≠ "Selecionado" := by decide
      exact ⟨fun hcon => absurd hcon hns, fun hcon => absurd hcon hrm⟩
  · rintro ⟨r, hr, hrm⟩
    have h1 : (yearRows df a).countP (fun r => decide (r.municipio = m)) = 1 := by
      have hpos : 0 < (yearRows df a).countP fun r => decide (r.municipio = m) :=
        List.countP_pos_iff.mpr ⟨r, hr, decide_eq_true hrm⟩
      have hle : (yearRows df a).countP (fun r => decide (r.municipio = m)) ≤ 1 := by
        rw [List.countP_eq_length_filter]
        exact h
      omega
    have hsel_len : (selRows df a m).length = 1 := by
      rw [selRows, ← List.countP_eq_length_filter, hdesc, h1]
    obtain ⟨s0, hs0⟩ := List.length_eq_one.mp hsel_len
    have hs0p : decide (s0.municipio = m) = true := by
      have hmem0 : s0 ∈ selRows df a m := by rw [hs0]; exact List.mem_cons_self s0 []
      rw [selRows] at hmem0
      exact (List.mem_filter.mp hmem0).2
    rw [hcount]
    by_cases hmem : m ∈ (naturalTop df a n).map LRec.municipio
    · rw [pickedRows, if_neg (fun hc => hc.2 hmem)]
      have hpos : 0 < (naturalTop df a n).countP fun r => decide (r.municipio = m) := by
        obtain ⟨r', hr', hr'm⟩ := List.mem_map.mp hmem
        exact List.countP_pos_iff.mpr ⟨r', hr', decide_eq_true hr'm⟩
      have hle : ((naturalTop df a n).countP fun r => decide (r.municipio = m)) ≤ 1 := by
        calc ((naturalTop df a n).countP fun r => decide (r.municipio = m))
            ≤ (sortDesc (yearRows df a)).countP fun r => decide (r.municipio = m) :=
              (List.take_sublist _ _).countP_le _
          _ = 1 := by rw [hdesc, h1]
      omega
    · have hsel : ¬(selRows df a m).isEmpty = true := by
        rw [List.isEmpty_iff, hs0]
        exact List.cons_ne_nil s0 []
      rw [pickedRows, if_pos ⟨hsel, hmem⟩, List.countP_append, hs0]
      have htop0 : ((naturalTop df a n).countP fun r => decide (r.municipio = m)) = 0 := by
        rw [List.countP_eq_zero]
        intro x hx hxp
        exact hmem (List.mem_map.mpr ⟨x, hx, of_decide_eq_true hxp⟩)
      rw [htop0]
      simp [List.countP_cons, hs0p]
  · intro hnone
    have h0 : (yearRows df a).countP (fun r => decide (r.municipio = m)) = 0 := by
      rw [List.countP_eq_zero]
      intro x hx hxp
      exact hnone x hx (of_decide_eq_true hxp)
    have hsel_nil : selRows df a m = [] := by
      have : (selRows df a m).length = 0 := by
        rw [selRows, ← List.countP_eq_length_filter, hdesc, h0]
      exact List.length_eq_zero.mp this
    rw [hcount, pickedRows, if_neg (fun hc => hc.1 (by rw [hsel_nil]; rfl))]
    have hle : ((naturalTop df a n).countP fun r => decide (r.municipio = m)) ≤ 0 := by
      calc ((naturalTop df a n).countP fun r => decide (r.municipio = m))
          ≤ (sortDesc (yearRows df a)).countP fun r => decide (r.municipio = m) :=
            (List.take_sublist _ _).countP_le _
        _ = 0 := by rw [hdesc, h0]
    omega

theorem C2_rank_order_witness :
    (rankingRows dfScenario 2021 "C" 2).Pairwise
      (fun p q => p.1.value.getD 0 ≤ q.1.value.getD 0)
  ∧ ((rankingRows dfScenario 2021 "C" 2).filter
      fun p => decide (p.2 = "Selecionado")).length = 1 :=
  ⟨(C2_rank_order_and_tags dfScenario 2021 "C" 2 (by decide)).1,
   (C2_rank_order_and_tags dfScenario 2021 "C" 2 (by decide)).2.2.1 (by decide)⟩

/-- The dataset used for C10: the selected municipality `"A"` has two records
for 2020, the lower-valued one first in dataset order. -/
def dfDup : List LRec :=
  [⟨"A", 2020, some 1⟩, ⟨"B", 2020, some 10⟩, ⟨"C", 2020, some 9⟩, ⟨"A", 2020, some 5⟩]

/-- C10 counterexample: the appended record is taken from the
*descending-sorted* frame (`sel = dfy[...]` is computed after the sort), so it
is a maximal-value record of the selected entity — here `(A, 5)` — and not the
first matching record in year-filtered dataset order, which is `(A, 1)` and is
absent from the output. -/
theorem C10_counterexample :
    ((yearRows dfDup 2020).filter fun r => decide (r.municipio = "A")).head? =
      some ⟨"A", 2020, some 1⟩
  ∧ (rankingRows dfDup 2020 "A" 2).map Prod.fst =
      [⟨"A", 2020, some 5⟩, ⟨"C", 2020, some 9⟩, ⟨"B", 2020, some 10⟩]
  ∧ ⟨"A", 2020, some 1⟩ ∉ (rankingRows dfDup 2020 "A" 2).map Prod.fst := by decide

/-- C10 (amended): the rank output never has more than `top_n + 1` rows; at
most one record of the selected entity is ever appended, namely the head of
the descending-sorted matching records (a maximal-value record of the
entity), even if several records exist for that entity and year. -/
theorem C10_rank_bound (df : List LRec) (a : Int) (m : String) (n : Nat) :
    (rankingRows df a m n).length ≤ n + 1
  ∧ ∀ s0 : LRec, (selRows df a m).head? = some s0 →
      m ∉ (naturalTop df a n).map LRec.municipio →
      ((rankingRows df a m n).map Prod.fst).Perm (naturalTop df a n ++ [s0]) := by
  constructor
  · rw [rankingRows_length, pickedRows]
    by_cases hc : ¬(selRows df a m).isEmpty = true ∧
        m ∉ (naturalTop df a n).map LRec.municipio
    · rw [if_pos hc, List.length_append]
      have h1 : (naturalTop df a n).length ≤ n := by
        rw [naturalTop]
        exact List.length_take_le n _
      have h2 : ((selRows df a m).take 1).length ≤ 1 := List.length_take_le 1 _
      omega
    · rw [if_neg hc]
      have h1 : (naturalTop df a n).length ≤ n := by
        rw [naturalTop]
        exact List.length_take_le n _
      omega
  · intro s0 hh hnot
    rcases hsel' : selRows df a m with _ | ⟨x, t⟩
    · rw [hsel'] at hh
      exact absurd hh (by simp)
    · rw [hsel'] at hh
      have hx : x = s0 := Option.some.inj hh
      have hne : ¬(selRows df a m).isEmpty = true := by
        rw [List.isEmpty_iff, hsel']
        exact List.cons_ne_nil x t
      refine (rankingRows_map_fst_perm df a m n).trans ?_
      rw [pickedRows, if_pos ⟨hne, hnot⟩, hsel', ← hx]
      rfl

theorem C10_rank_bound_witness :
    (rankingRows dfDup 2020 "A" 2).length ≤ 2 + 1
  ∧ ((rankingRows dfDup 2020 "A" 2).map Prod.fst).Perm
      (naturalTop dfDup 2020 2 ++ [⟨"A", 2020, some 5⟩]) :=
  ⟨(C10_rank_bound dfDup 2020 "A" 2).1,
   (C10_rank_bound dfDup 2020 "A" 2).2 ⟨"A", 2020, some 5⟩ (by decide) (by decide)⟩
